import Mathlib

/-!
Shallow embedding of the Moodle-to-Google-Drive sync tool (src/sync.py).

The embedding models the pieces the specification's claims are about:
the SQLite-backed sync ledger (`db_connection`, `init_db`,
`file_already_synced`, `record_file`), the Google Drive folder and upload
operations (`ensure_folder`, `upload_file`, the root-container resolution
inlined in `main`), and the orchestration loop of `main` over the items
produced by the scraper.  External collaborators (the selenium scraper,
the Drive HTTP service) are modelled by explicit state: the Drive service
becomes a list of folders plus a list of performed uploads, the local
filesystem becomes the list of staged file paths present on disk, and the
SQLite connection carries both its own view of the table and the committed
on-disk contents.
-/

namespace MoodleSync

/-- One row of the `synced_files` table (sync.py lines 43-49): `file_url`
is UNIQUE, `synced_at` is filled by the column default at insertion.  The
surrogate `id` autoincrement column carries no information and is omitted. -/
structure SyncRecord where
  file_url : String
  file_name : String
  course : String
  synced_at : Nat
deriving DecidableEq

/-- A SQLite connection to the ledger: `pending` is the connection's current
view of the `synced_files` table (including its own uncommitted writes),
`durable` is what has been committed to the database file.  `conn.commit()`
publishes the view to disk. -/
structure Db where
  pending : List SyncRecord
  durable : List SyncRecord
deriving DecidableEq

/-- conn.commit(): make the connection's view durable. -/
def commitDb (db : Db) : Db :=
  { db with durable := db.pending }

/-- file_already_synced (sync.py lines 55-58): SELECT 1 FROM synced_files
WHERE file_url=?; true iff the query returns a row. -/
def file_already_synced (db : Db) (file_url : String) : Bool :=
  db.pending.any (fun r => r.file_url == file_url)

/-- record_file (sync.py lines 61-67): INSERT OR IGNORE INTO synced_files
(file_url, file_name, course) VALUES (?, ?, ?) followed by conn.commit().
The UNIQUE constraint on `file_url` makes the insert a no-op when a row
with that URL already exists; `t` is the CURRENT_TIMESTAMP default that
fills `synced_at` at insertion. -/
def record_file (db : Db) (file_url file_name course : String) (t : Nat) : Db :=
  if db.pending.any (fun r => r.file_url == file_url) then
    commitDb db
  else
    commitDb { db with pending := db.pending ++ [⟨file_url, file_name, course, t⟩] }

/-- The ledger database file as seen across process runs: `table` is `none`
while the `synced_files` table does not exist yet, and `some rows` once it
does.  Used to model `init_db`, which is the only operation that can run
against a database without the table. -/
structure DbFile where
  table : Option (List SyncRecord)
deriving DecidableEq

/-- init_db (sync.py lines 39-52): CREATE TABLE IF NOT EXISTS synced_files
followed by conn.commit(); creates an empty table when absent and is a
no-op on the rows of an existing table. -/
def init_db (f : DbFile) : DbFile :=
  ⟨some (f.table.getD [])⟩

/-- file_already_synced read against the database file, for states where
the table may not exist yet (a missing table has no rows). -/
def file_already_synced_file (f : DbFile) (file_url : String) : Bool :=
  (f.table.getD []).any (fun r => r.file_url == file_url)

/-- A Google Drive folder as the queries of sync.py see it: its id, name,
optional parent, and trashed flag.  Only folders are modelled; uploaded
files are tracked separately in `Drive.uploads`. -/
structure Folder where
  id : Nat
  name : String
  parent : Option Nat
  trashed : Bool
deriving DecidableEq

/-- The Drive service state: the folders that exist, the uploads performed
so far as (destination folder id, file name) pairs, and the next fresh id
handed out by files().create. -/
structure Drive where
  folders : List Folder
  uploads : List (Nat × String)
  nextId : Nat
deriving DecidableEq

/-- ensure_folder (sync.py lines 82-98): files().list with query
parent in parents, folder mime type, exact name, trashed=false; if the
result list is nonempty return files[0].id, otherwise files().create a
folder with that name under the parent and return its id. -/
def ensure_folder (d : Drive) (parent_id : Nat) (name : String) : Nat × Drive :=
  match d.folders.filter
      (fun f => f.parent == some parent_id && f.name == name && !f.trashed) with
  | f :: _ => (f.id, d)
  | [] =>
    (d.nextId,
     { d with
         folders := d.folders ++ [⟨d.nextId, name, some parent_id, false⟩],
         nextId := d.nextId + 1 })

/-- Root container resolution inlined in main (sync.py lines 169-173):
files().list with query exact name, folder mime type, trashed=false — with
no parent clause, so the search ranges over the whole drive; if the result
is nonempty take files[0].id, otherwise files().create a folder with that
name and no explicit parent. -/
def resolveRoot (d : Drive) (name : String) : Nat × Drive :=
  match d.folders.filter (fun f => f.name == name && !f.trashed) with
  | f :: _ => (f.id, d)
  | [] =>
    (d.nextId,
     { d with
         folders := d.folders ++ [⟨d.nextId, name, none, false⟩],
         nextId := d.nextId + 1 })

/-- os.path.basename as used on the staging paths of sync.py: the final
path component, i.e. everything after the last slash. -/
def basename (s : String) : String :=
  ⟨(s.data.reverse.takeWhile (fun c => c != '/')).reverse⟩

/-- os.path.join as used on the relative staging paths of sync.py
(lines 180-182): tmp, then the course name, then the file name. -/
def pathJoin (a b : String) : String :=
  a ++ "/" ++ b

/-- upload_file (sync.py lines 101-105): files().create with name
os.path.basename(path) under the given parent; recorded as one more
performed upload. -/
def upload_file (d : Drive) (parent_id : Nat) (path : String) : Drive :=
  { d with uploads := d.uploads ++ [(parent_id, basename path)] }

/-- MoodleFile (sync.py lines 108-112): one file item yielded by the
scraper — display name, stable URL, owning course name. -/
structure MoodleFile where
  name : String
  url : String
  course : String
deriving DecidableEq

/-- The state threaded through one orchestration pass: the ledger
connection, the Drive service, the set of staged file paths present on the
local disk, and the trace of source URLs fetched so far. -/
structure RunState where
  db : Db
  drive : Drive
  fs : List String
  fetches : List String
deriving DecidableEq

/-- Mark a staged path as present on disk (open(local_path, "wb") creates
the file; rewriting an existing path leaves one file). -/
def fsAdd (fs : List String) (p : String) : List String :=
  if fs.contains p then fs else fs ++ [p]

/-- os.remove(local_path): the staged path is gone from disk. -/
def fsRemove (fs : List String) (p : String) : List String :=
  fs.filter (fun q => q != p)

/-- The body of the inner loop of main (sync.py lines 176-188) for one
item.  `uploadFails` is the environment's failure oracle: whether the
Drive upload for this item's URL raises.  Returns the new state and
whether the pass aborted (an exception propagated).  Faithful order: skip
check, ensure_folder, makedirs and staged write, fetch, upload, record,
remove; an upload failure propagates before record_file and os.remove
run. -/
def processItem (uploadFails : String → Bool) (root_id t : Nat)
    (s : RunState) (m : MoodleFile) : RunState × Bool :=
  if file_already_synced s.db m.url then
    (s, false)
  else
    let ef := ensure_folder s.drive root_id m.course
    let local_path := pathJoin (pathJoin "tmp" m.course) m.name
    let fetches1 := s.fetches ++ [m.url]
    let fs1 := fsAdd s.fs local_path
    if uploadFails m.url then
      ({ s with drive := ef.2, fs := fs1, fetches := fetches1 }, true)
    else
      let drive2 := upload_file ef.2 ef.1 local_path
      let db1 := record_file s.db m.url m.name m.course t
      ({ db := db1, drive := drive2, fs := fsRemove fs1 local_path,
         fetches := fetches1 }, false)

/-- The item loop of main over the flattened course/file enumeration,
stopping at the first propagated exception. -/
def runItems (uploadFails : String → Bool) (root_id t : Nat) :
    RunState → List MoodleFile → RunState × Bool
  | s, [] => (s, false)
  | s, m :: ms =>
    let r := processItem uploadFails root_id t s m
    if r.2 then (r.1, true) else runItems uploadFails root_id t r.1 ms

/-- db_connection (sync.py lines 31-36) around the run: on normal exit the
context manager resumes past the yield and runs conn.commit() and
conn.close(); when the body raises, the generator is never resumed, so the
final commit and close do not execute.  Returns the committed on-disk
ledger after the run. -/
def runLedgerOnDisk (uploadFails : String → Bool) (root_id t : Nat)
    (s : RunState) (items : List MoodleFile) : List SyncRecord :=
  let r := runItems uploadFails root_id t s items
  if r.2 then r.1.db.durable else (commitDb r.1.db).durable

/-- Split a character list into the slash-separated components of a path;
`cur` accumulates the current component in reverse. -/
def splitSlashAux : List Char → List Char → List String
  | cur, [] => [⟨cur.reverse⟩]
  | cur, c :: cs =>
    if c = '/' then ⟨cur.reverse⟩ :: splitSlashAux [] cs
    else splitSlashAux (c :: cur) cs

/-- The slash-separated components of a path string. -/
def pathParts (s : String) : List String :=
  splitSlashAux [] s.data

/-- The cumulative joins of a component list starting from `acc`:
joinsFrom "tmp" ["CS101"] = ["tmp", "tmp/CS101"]. -/
def joinsFrom : String → List String → List String
  | acc, [] => [acc]
  | acc, p :: ps => acc :: joinsFrom (acc ++ "/" ++ p) ps

/-- Every directory os.makedirs(p, exist_ok=True) guarantees to exist:
each slash-boundary prefix of `p`, `p` itself included. -/
def dirAncestors (p : String) : List String :=
  match pathParts p with
  | [] => []
  | h :: tl => joinsFrom h tl

/-- os.path.dirname: everything before the last slash (empty for a
slash-free path). -/
def dirname (s : String) : String :=
  ⟨((s.data.reverse.dropWhile (fun c => c != '/')).drop 1).reverse⟩

/-- Whether open(p, "wb") succeeds given the set of existing directories:
the parent directory must exist, the path must not end in a slash, and the
path must not itself be a directory; otherwise open raises
(FileNotFoundError / IsADirectoryError) before any byte is written. -/
def canWrite (dirs : List String) (p : String) : Bool :=
  dirs.contains (dirname p) && basename p != "" && !(dirs.contains p)

/-- RunState refined with the local directory structure, needed where an
item's staging path escapes its course directory: `dirs` is the set of
directories existing under the working directory. -/
structure RunStateFS where
  db : Db
  drive : Drive
  dirs : List String
  fs : List String
  fetches : List String
deriving DecidableEq

/-- The loop body of main for one item (sync.py lines 176-188), refining
`processItem` with the directory structure: os.makedirs creates the
staging directory chain for tmp/course (line 181), and the staged write
open(local_path, "wb") (line 184) raises when the staging path's parent
directory does not exist — which happens exactly when item.name carries
path separators pointing outside the directories created so far.  Such a
failure propagates before upload, record and remove, aborting the run. -/
def processItemFS (uploadFails : String → Bool) (root_id t : Nat)
    (s : RunStateFS) (m : MoodleFile) : RunStateFS × Bool :=
  if file_already_synced s.db m.url then
    (s, false)
  else
    let ef := ensure_folder s.drive root_id m.course
    let local_dir := pathJoin "tmp" m.course
    let dirs1 := (dirAncestors local_dir).foldl fsAdd s.dirs
    let local_path := pathJoin local_dir m.name
    let fetches1 := s.fetches ++ [m.url]
    if canWrite dirs1 local_path then
      let fs1 := fsAdd s.fs local_path
      if uploadFails m.url then
        ({ s with drive := ef.2, dirs := dirs1, fs := fs1, fetches := fetches1 }, true)
      else
        ({ db := record_file s.db m.url m.name m.course t,
           drive := upload_file ef.2 ef.1 local_path,
           dirs := dirs1,
           fs := fsRemove fs1 local_path,
           fetches := fetches1 }, false)
    else
      ({ s with drive := ef.2, dirs := dirs1, fetches := fetches1 }, true)

/-! Helper lemmas shared by the claim theorems. -/

theorem ensure_folder_keeps_uploads (d : Drive) (p : Nat) (n : String) :
    (ensure_folder d p n).2.uploads = d.uploads := by
  unfold ensure_folder
  split <;> rfl

theorem takeWhile_append_of_forall {p : Char → Bool} {l1 l2 : List Char} {c : Char}
    (h1 : ∀ x ∈ l1, p x = true) (hc : p c = false) :
    (l1 ++ c :: l2).takeWhile p = l1 := by
  induction l1 with
  | nil => simp [List.takeWhile_cons, hc]
  | cons a as ih =>
    have ha := h1 a (List.mem_cons_self a as)
    simp [List.takeWhile_cons, ha,
          ih (fun x hx => h1 x (List.mem_cons_of_mem a hx))]

theorem basename_pathJoin (a n : String)
    (h : n.data.all (fun c => c != '/') = true) :
    basename (pathJoin a n) = n := by
  have hd0 : (pathJoin a n).data = (a.data ++ ['/']) ++ n.data := rfl
  have hd : (pathJoin a n).data = a.data ++ '/' :: n.data := by
    rw [hd0, List.append_assoc]
    rfl
  have h1 : ∀ x ∈ n.data.reverse, (x != '/') = true := by
    intro x hx
    exact List.all_eq_true.mp h x (List.mem_reverse.mp hx)
  have hrev : (a.data ++ '/' :: n.data).reverse
      = n.data.reverse ++ '/' :: a.data.reverse := by
    simp
  have htw : ((pathJoin a n).data.reverse.takeWhile (fun c => c != '/'))
      = n.data.reverse := by
    rw [hd, hrev]
    exact takeWhile_append_of_forall h1 (by simp)
  show String.mk ((pathJoin a n).data.reverse.takeWhile (fun c => c != '/')).reverse = n
  rw [htw, List.reverse_reverse]

/-! Claim theorems. -/

/-- C8: for every ledger state and url `u`, `file_already_synced` returns
true iff a SyncRecord whose `file_url` equals `u` exists in the ledger. -/
theorem is_synced_iff_record_exists (db : Db) (u : String) :
    file_already_synced db u = true ↔ ∃ r ∈ db.pending, r.file_url = u := by
  simp [file_already_synced]

/-- C2: when an item's url is already recorded, the orchestrator's loop
body performs no fetch, no upload, no folder creation and no ledger
write: the whole run state is returned unchanged and the pass does not
abort. -/
theorem skip_has_no_side_effects (uploadFails : String → Bool)
    (root_id t : Nat) (s : RunState) (m : MoodleFile)
    (h : file_already_synced s.db m.url = true) :
    processItem uploadFails root_id t s m = (s, false) := by
  simp [processItem, h]

/-- Witness for C2: a state whose ledger holds the item's url is returned
untouched. -/
theorem skip_has_no_side_effects_witness :
    file_already_synced
      (⟨[⟨"https://x/1", "notes.pdf", "CS101", 0⟩],
        [⟨"https://x/1", "notes.pdf", "CS101", 0⟩]⟩ : Db) "https://x/1" = true ∧
    processItem (fun _ => false) 0 5
        ⟨⟨[⟨"https://x/1", "notes.pdf", "CS101", 0⟩],
          [⟨"https://x/1", "notes.pdf", "CS101", 0⟩]⟩, ⟨[], [], 0⟩, [], []⟩
        ⟨"notes.pdf", "https://x/1", "CS101"⟩ =
      (⟨⟨[⟨"https://x/1", "notes.pdf", "CS101", 0⟩],
         [⟨"https://x/1", "notes.pdf", "CS101", 0⟩]⟩, ⟨[], [], 0⟩, [], []⟩, false) :=
  ⟨by decide,
   skip_has_no_side_effects (fun _ => false) 0 5
     ⟨⟨[⟨"https://x/1", "notes.pdf", "CS101", 0⟩],
       [⟨"https://x/1", "notes.pdf", "CS101", 0⟩]⟩, ⟨[], [], 0⟩, [], []⟩
     ⟨"notes.pdf", "https://x/1", "CS101"⟩ (by decide)⟩

/-- C10: running `init_db` against a database whose `synced_files` table
already exists leaves the table exactly as it was, so `is_synced` answers
are identical before and after. -/
theorem init_db_preserves_ledger (rows : List SyncRecord) (f : DbFile)
    (h : f.table = some rows) :
    init_db f = f ∧
    ∀ u, file_already_synced_file (init_db f) u = file_already_synced_file f u := by
  obtain ⟨tb⟩ := f
  cases h
  exact ⟨rfl, fun u => rfl⟩

/-- Witness for C10: a one-row table survives `init_db` unchanged. -/
theorem init_db_preserves_ledger_witness :
    (⟨some [⟨"https://x/1", "notes.pdf", "CS101", 0⟩]⟩ : DbFile).table =
      some [⟨"https://x/1", "notes.pdf", "CS101", 0⟩] ∧
    init_db ⟨some [⟨"https://x/1", "notes.pdf", "CS101", 0⟩]⟩ =
      ⟨some [⟨"https://x/1", "notes.pdf", "CS101", 0⟩]⟩ ∧
    file_already_synced_file (init_db ⟨some [⟨"https://x/1", "notes.pdf", "CS101", 0⟩]⟩)
        "https://x/1" =
      file_already_synced_file ⟨some [⟨"https://x/1", "notes.pdf", "CS101", 0⟩]⟩
        "https://x/1" :=
  ⟨rfl,
   (init_db_preserves_ledger [⟨"https://x/1", "notes.pdf", "CS101", 0⟩]
     ⟨some [⟨"https://x/1", "notes.pdf", "CS101", 0⟩]⟩ rfl).1,
   (init_db_preserves_ledger [⟨"https://x/1", "notes.pdf", "CS101", 0⟩]
     ⟨some [⟨"https://x/1", "notes.pdf", "CS101", 0⟩]⟩ rfl).2 "https://x/1"⟩

/-- C4: `ensure_folder` is idempotent: the first call either returns the
first existing non-trashed child of the parent with the requested name or
creates one, and a second call with the same arguments returns the same id
and leaves the drive unchanged (no duplicate folder). -/
theorem ensure_folder_idempotent (d : Drive) (p : Nat) (n : String) :
    (ensure_folder (ensure_folder d p n).2 p n).1 = (ensure_folder d p n).1 ∧
    (ensure_folder (ensure_folder d p n).2 p n).2 = (ensure_folder d p n).2 ∧
    (match d.folders.filter
        (fun f => f.parent == some p && f.name == n && !f.trashed) with
     | f :: _ => (ensure_folder d p n).1 = f.id ∧ (ensure_folder d p n).2 = d
     | [] => (ensure_folder d p n).2.folders =
         d.folders ++ [⟨d.nextId, n, some p, false⟩]) := by
  cases hf : d.folders.filter
      (fun f => f.parent == some p && f.name == n && !f.trashed) with
  | cons f fs =>
    refine ⟨?_, ?_, ?_⟩ <;> simp [ensure_folder, hf]
  | nil =>
    have hf2 : (d.folders ++ [(⟨d.nextId, n, some p, false⟩ : Folder)]).filter
        (fun f => f.parent == some p && f.name == n && !f.trashed)
        = [⟨d.nextId, n, some p, false⟩] := by
      simp [List.filter_append, hf]
    refine ⟨?_, ?_, ?_⟩ <;> simp [ensure_folder, hf, hf2]

theorem record_file_committed (db : Db) (u n c : String) (t : Nat) :
    (record_file db u n c t).durable = (record_file db u n c t).pending := by
  unfold record_file commitDb
  split <;> rfl

theorem commitDb_of_committed (db : Db) (h : db.durable = db.pending) :
    commitDb db = db := by
  obtain ⟨p, d⟩ := db
  cases h
  rfl

theorem record_file_of_mem (db : Db) (u n c : String) (t : Nat)
    (h : db.pending.any (fun r => r.file_url == u) = true) :
    record_file db u n c t = commitDb db := by
  unfold record_file
  rw [h]
  simp

theorem record_file_mem (db : Db) (u n c : String) (t : Nat) :
    (record_file db u n c t).pending.any (fun r => r.file_url == u) = true := by
  unfold record_file
  cases hany : db.pending.any (fun r => r.file_url == u) with
  | true => simpa [commitDb] using hany
  | false => simp [commitDb]

theorem mem_fsAdd (fs : List String) (p : String) : p ∈ fsAdd fs p := by
  unfold fsAdd
  split
  · next hc => simpa using hc
  · simp

theorem not_mem_fsRemove (fs : List String) (p : String) : p ∉ fsRemove fs p := by
  simp [fsRemove]

/-- C1: calling `record_file` twice with the same url leaves exactly one
SyncRecord for that url; the second call — even with a different name,
course, or timestamp — is a silent no-op that returns the ledger of the
first call unchanged in every field. -/
theorem record_file_idempotent (db : Db) (u n c n2 c2 : String) (t t2 : Nat)
    (h : (db.pending.filter (fun r => r.file_url == u)).length ≤ 1) :
    record_file (record_file db u n c t) u n2 c2 t2 = record_file db u n c t ∧
    ((record_file db u n c t).pending.filter
        (fun r => r.file_url == u)).length = 1 := by
  constructor
  · have hX := record_file_mem db u n c t
    calc record_file (record_file db u n c t) u n2 c2 t2
        = commitDb (record_file db u n c t) :=
          record_file_of_mem _ u n2 c2 t2 hX
      _ = record_file db u n c t :=
          commitDb_of_committed _ (record_file_committed db u n c t)
  · cases hany : db.pending.any (fun r => r.file_url == u) with
    | true =>
      have hpend : (record_file db u n c t).pending = db.pending := by
        simp [record_file, hany, commitDb]
      rw [hpend]
      obtain ⟨r, hr, hru⟩ := List.any_eq_true.mp hany
      have hmem : r ∈ db.pending.filter (fun x => x.file_url == u) :=
        List.mem_filter.mpr ⟨hr, hru⟩
      have hpos : 0 < (db.pending.filter (fun r => r.file_url == u)).length := by
        apply List.length_pos.mpr
        intro hnil
        rw [hnil] at hmem
        exact absurd hmem (List.not_mem_nil r)
      exact Nat.le_antisymm h hpos
    | false =>
      have hpend : (record_file db u n c t).pending
          = db.pending ++ [⟨u, n, c, t⟩] := by
        simp [record_file, hany, commitDb]
      have hfil : db.pending.filter (fun r => r.file_url == u) = [] := by
        apply List.filter_eq_nil_iff.mpr
        intro r hr
        simp only [List.any_eq_false] at hany
        simpa using hany r hr
      rw [hpend, List.filter_append, hfil]
      simp

/-- Witness for C1: inserting the same url twice into an empty ledger,
with a different name, course and timestamp the second time, yields one
record carrying the first call's fields. -/
theorem record_file_idempotent_witness :
    ((⟨[], []⟩ : Db).pending.filter
        (fun r => r.file_url == "https://x/1")).length ≤ 1 ∧
    record_file (record_file ⟨[], []⟩ "https://x/1" "notes.pdf" "CS101" 1)
        "https://x/1" "other.pdf" "CS999" 2 =
      record_file ⟨[], []⟩ "https://x/1" "notes.pdf" "CS101" 1 ∧
    ((record_file ⟨[], []⟩ "https://x/1" "notes.pdf" "CS101" 1).pending.filter
        (fun r => r.file_url == "https://x/1")).length = 1 :=
  ⟨by decide,
   (record_file_idempotent ⟨[], []⟩ "https://x/1" "notes.pdf" "CS101"
     "other.pdf" "CS999" 1 2 (by decide)).1,
   (record_file_idempotent ⟨[], []⟩ "https://x/1" "notes.pdf" "CS101"
     "other.pdf" "CS999" 1 2 (by decide)).2⟩

/-- C3 counterexample: when the upload for an item fails, the loop body of
main aborts before reaching os.remove, so the staged file written for the
item is still on disk after the attempt — the claim that removal happens
on all exit paths is false. -/
theorem staged_file_left_on_upload_failure :
    (processItem (fun u => u == "https://x/1") 0 0
        ⟨⟨[], []⟩, ⟨[], [], 1⟩, [], []⟩ ⟨"notes.pdf", "https://x/1", "CS101"⟩).2
      = true ∧
    pathJoin (pathJoin "tmp" "CS101") "notes.pdf" ∈
      (processItem (fun u => u == "https://x/1") 0 0
        ⟨⟨[], []⟩, ⟨[], [], 1⟩, [], []⟩
        ⟨"notes.pdf", "https://x/1", "CS101"⟩).1.fs := by
  decide

/-- C3 amended: on the success path the staged file is removed after the
upload and ledger write, but when the upload fails the loop body aborts
with the staged file still present on disk — removal is not guaranteed on
failure paths. -/
theorem staging_cleanup_on_success_only (uploadFails : String → Bool)
    (root_id t : Nat) (s : RunState) (m : MoodleFile)
    (hnew : file_already_synced s.db m.url = false) :
    (uploadFails m.url = false →
      (processItem uploadFails root_id t s m).2 = false ∧
      pathJoin (pathJoin "tmp" m.course) m.name ∉
        (processItem uploadFails root_id t s m).1.fs) ∧
    (uploadFails m.url = true →
      (processItem uploadFails root_id t s m).2 = true ∧
      pathJoin (pathJoin "tmp" m.course) m.name ∈
        (processItem uploadFails root_id t s m).1.fs) := by
  constructor
  · intro hU
    refine ⟨by simp [processItem, hnew, hU], ?_⟩
    simp only [processItem, hnew, hU]
    simpa using not_mem_fsRemove (fsAdd s.fs (pathJoin (pathJoin "tmp" m.course) m.name))
      (pathJoin (pathJoin "tmp" m.course) m.name)
  · intro hU
    refine ⟨by simp [processItem, hnew, hU], ?_⟩
    simp only [processItem, hnew, hU]
    simpa using mem_fsAdd s.fs (pathJoin (pathJoin "tmp" m.course) m.name)

/-- Witness for the amended C3: a fresh item is transferred and its staged
file is gone afterwards. -/
theorem staging_cleanup_on_success_only_witness :
    file_already_synced (⟨[], []⟩ : Db) "https://x/1" = false ∧
    ((fun _ => false) "https://x/1" = false →
      (processItem (fun _ => false) 0 0 ⟨⟨[], []⟩, ⟨[], [], 1⟩, [], []⟩
          ⟨"notes.pdf", "https://x/1", "CS101"⟩).2 = false ∧
      pathJoin (pathJoin "tmp" "CS101") "notes.pdf" ∉
        (processItem (fun _ => false) 0 0 ⟨⟨[], []⟩, ⟨[], [], 1⟩, [], []⟩
          ⟨"notes.pdf", "https://x/1", "CS101"⟩).1.fs) :=
  ⟨by decide,
   (staging_cleanup_on_success_only (fun _ => false) 0 0
     ⟨⟨[], []⟩, ⟨[], [], 1⟩, [], []⟩
     ⟨"notes.pdf", "https://x/1", "CS101"⟩ (by decide)).1⟩

/-- C5 counterexample: the root-container query of main has no parent
clause, so it can return a folder that is not a child of the intended
parent, and on the creation path it creates the folder with no parent at
all — it is not the ensure_folder pattern scoped to a parent. -/
theorem root_resolution_unscoped_counterexample :
    (resolveRoot ⟨[⟨0, "Moodle Sync", some 99, false⟩], [], 1⟩ "Moodle Sync").1 ≠
      (ensure_folder ⟨[⟨0, "Moodle Sync", some 99, false⟩], [], 1⟩ 5
        "Moodle Sync").1 ∧
    (resolveRoot ⟨[], [], 0⟩ "Moodle Sync").2.folders ≠
      (ensure_folder ⟨[], [], 0⟩ 5 "Moodle Sync").2.folders := by
  decide

/-- C5 amended: root resolution is find-or-create with the same name and
trashed criteria as ensure_folder but searches the whole drive without a
parent clause and creates the folder without a parent; it returns the same
id as ensure_folder at parent `p` exactly when every non-trashed folder
carrying the root name is a child of `p`. -/
theorem root_resolution_find_or_create (d : Drive) (n : String) (p : Nat)
    (h : ∀ f ∈ d.folders, (f.name == n && !f.trashed) = true → f.parent = some p) :
    (resolveRoot d n).1 = (ensure_folder d p n).1 ∧
    (match d.folders.filter (fun f => f.name == n && !f.trashed) with
     | f :: _ => resolveRoot d n = (f.id, d)
     | [] => resolveRoot d n =
         (d.nextId,
          { d with folders := d.folders ++ [⟨d.nextId, n, none, false⟩],
                   nextId := d.nextId + 1 })) := by
  have hfe : d.folders.filter
      (fun f => f.parent == some p && f.name == n && !f.trashed)
      = d.folders.filter (fun f => f.name == n && !f.trashed) := by
    apply List.filter_congr
    intro f hfmem
    by_cases hN : f.name = n
    · by_cases hT : f.trashed
      · simp [hT]
      · have hp := h f hfmem (by simp [hN, hT])
        simp [hN, hT, hp]
    · have hb : (f.name == n) = false := beq_eq_false_iff_ne.mpr hN
      simp [hb]
  cases hf : d.folders.filter (fun f => f.name == n && !f.trashed) with
  | cons f fs =>
    constructor
    · simp [resolveRoot, ensure_folder, hfe, hf]
    · simp [resolveRoot, hf]
  | nil =>
    constructor
    · simp [resolveRoot, ensure_folder, hfe, hf]
    · simp [resolveRoot, hf]

/-- Witness for the amended C5: with the single root folder sitting under
parent 5, unscoped resolution and ensure_folder at parent 5 agree. -/
theorem root_resolution_find_or_create_witness :
    (∀ f ∈ (⟨[⟨0, "Moodle Sync", some 5, false⟩], [], 1⟩ : Drive).folders,
      (f.name == "Moodle Sync" && !f.trashed) = true → f.parent = some 5) ∧
    (resolveRoot ⟨[⟨0, "Moodle Sync", some 5, false⟩], [], 1⟩ "Moodle Sync").1 =
      (ensure_folder ⟨[⟨0, "Moodle Sync", some 5, false⟩], [], 1⟩ 5
        "Moodle Sync").1 :=
  ⟨by decide,
   (root_resolution_find_or_create ⟨[⟨0, "Moodle Sync", some 5, false⟩], [], 1⟩
     "Moodle Sync" 5 (by decide)).1⟩

/-- C7 counterexample, on the directory-aware model: an item named "a/b"
in course "CS101" alone makes open() raise — no upload happens (first two
conjuncts).  But after an item of course "CS101/a" has run, os.makedirs
has created the directory tmp/CS101/a, so for the "a/b" item the staged
write to tmp/CS101/a/b succeeds, the item is transferred (no abort), and
its upload is named basename of the staging path — "b", not item.name
"a/b" (folder 10 is the "CS101/a" folder, folder 11 the "CS101" one). -/
theorem upload_name_differs_counterexample :
    (processItemFS (fun _ => false) 0 1
        ⟨⟨[], []⟩, ⟨[], [], 10⟩, [], [], []⟩ ⟨"a/b", "https://x/9", "CS101"⟩).2
      = true ∧
    (processItemFS (fun _ => false) 0 1
        ⟨⟨[], []⟩, ⟨[], [], 10⟩, [], [], []⟩
        ⟨"a/b", "https://x/9", "CS101"⟩).1.drive.uploads = [] ∧
    (processItemFS (fun _ => false) 0 1
        ⟨⟨[], []⟩, ⟨[], [], 10⟩, [], [], []⟩ ⟨"b", "https://x/8", "CS101/a"⟩).2
      = false ∧
    (processItemFS (fun _ => false) 0 2
        (processItemFS (fun _ => false) 0 1
          ⟨⟨[], []⟩, ⟨[], [], 10⟩, [], [], []⟩ ⟨"b", "https://x/8", "CS101/a"⟩).1
        ⟨"a/b", "https://x/9", "CS101"⟩).2 = false ∧
    (processItemFS (fun _ => false) 0 2
        (processItemFS (fun _ => false) 0 1
          ⟨⟨[], []⟩, ⟨[], [], 10⟩, [], [], []⟩ ⟨"b", "https://x/8", "CS101/a"⟩).1
        ⟨"a/b", "https://x/9", "CS101"⟩).1.drive.uploads
      = [(10, "b"), (11, "b")] ∧
    ("b" : String) ≠ "a/b" := by
  decide

/-- C7 amended: every item whose staged write and upload both succeed is
uploaded to the folder resolved by ensure_folder for its course under the
basename of the staging path tmp/course/name, which equals item.name
exactly when item.name contains no slash; an item whose name contains a
slash is transferred only when the staging path's parent directory already
exists, and is then uploaded under the basename instead of item.name. -/
theorem upload_under_basename (uploadFails : String → Bool) (root_id t : Nat)
    (s : RunStateFS) (m : MoodleFile)
    (hnew : file_already_synced s.db m.url = false)
    (hw : canWrite ((dirAncestors (pathJoin "tmp" m.course)).foldl fsAdd s.dirs)
        (pathJoin (pathJoin "tmp" m.course) m.name) = true)
    (hok : uploadFails m.url = false) :
    (processItemFS uploadFails root_id t s m).1.drive.uploads =
      s.drive.uploads ++
        [((ensure_folder s.drive root_id m.course).1,
          basename (pathJoin (pathJoin "tmp" m.course) m.name))] ∧
    (m.name.data.all (fun c => c != '/') = true →
      basename (pathJoin (pathJoin "tmp" m.course) m.name) = m.name) := by
  constructor
  · simp [processItemFS, hnew, hw, hok, upload_file, ensure_folder_keeps_uploads]
  · intro hname
    exact basename_pathJoin (pathJoin "tmp" m.course) m.name hname

/-- Witness for the amended C7: a slash-free name in a fresh staging
directory is written, uploaded unchanged to the folder resolved for its
course, and its basename is itself. -/
theorem upload_under_basename_witness :
    file_already_synced (⟨[], []⟩ : Db) "https://x/1" = false ∧
    canWrite ((dirAncestors (pathJoin "tmp" "CS101")).foldl fsAdd [])
      (pathJoin (pathJoin "tmp" "CS101") "notes.pdf") = true ∧
    (processItemFS (fun _ => false) 0 0 ⟨⟨[], []⟩, ⟨[], [], 1⟩, [], [], []⟩
        ⟨"notes.pdf", "https://x/1", "CS101"⟩).1.drive.uploads =
      (⟨[], [], 1⟩ : Drive).uploads ++
        [((ensure_folder ⟨[], [], 1⟩ 0 "CS101").1,
          basename (pathJoin (pathJoin "tmp" "CS101") "notes.pdf"))] ∧
    basename (pathJoin (pathJoin "tmp" "CS101") "notes.pdf") = "notes.pdf" :=
  ⟨by decide, by decide,
   (upload_under_basename (fun _ => false) 0 0
     ⟨⟨[], []⟩, ⟨[], [], 1⟩, [], [], []⟩
     ⟨"notes.pdf", "https://x/1", "CS101"⟩ (by decide) (by decide) rfl).1,
   (upload_under_basename (fun _ => false) 0 0
     ⟨⟨[], []⟩, ⟨[], [], 1⟩, [], [], []⟩
     ⟨"notes.pdf", "https://x/1", "CS101"⟩ (by decide) (by decide) rfl).2
     (by decide)⟩

theorem processItem_keeps_commit (uploadFails : String → Bool) (root_id t : Nat)
    (s : RunState) (m : MoodleFile) (h : s.db.pending = s.db.durable) :
    (processItem uploadFails root_id t s m).1.db.pending =
      (processItem uploadFails root_id t s m).1.db.durable := by
  by_cases h1 : file_already_synced s.db m.url
  · simp [processItem, h1, h]
  · by_cases h2 : uploadFails m.url
    · simp [processItem, h1, h2, h]
    · simp [processItem, h1, h2]
      exact (record_file_committed s.db m.url m.name m.course t).symm

theorem runItems_keeps_commit (uploadFails : String → Bool) (root_id t : Nat)
    (items : List MoodleFile) :
    ∀ s : RunState, s.db.pending = s.db.durable →
      (runItems uploadFails root_id t s items).1.db.pending =
        (runItems uploadFails root_id t s items).1.db.durable := by
  induction items with
  | nil =>
    intro s h
    simpa [runItems] using h
  | cons m ms ih =>
    intro s h
    simp only [runItems]
    by_cases hab : (processItem uploadFails root_id t s m).2
    · simp [hab]
      exact processItem_keeps_commit uploadFails root_id t s m h
    · simp [hab]
      exact ih _ (processItem_keeps_commit uploadFails root_id t s m h)

/-- C9: record_file commits its insertion itself before returning (the
committed table always contains the inserted url afterwards), so the
on-disk ledger after a run equals the connection's view even when the run
aborts and db_connection's final commit and close never execute. -/
theorem record_file_commits_durably (uploadFails : String → Bool)
    (root_id t : Nat) (s : RunState) (items : List MoodleFile)
    (h : s.db.pending = s.db.durable) :
    (∀ (db : Db) (u n c : String) (t2 : Nat),
      ∃ r ∈ (record_file db u n c t2).durable, r.file_url = u) ∧
    runLedgerOnDisk uploadFails root_id t s items =
      (runItems uploadFails root_id t s items).1.db.pending := by
  constructor
  · intro db u n c t2
    rw [record_file_committed db u n c t2]
    obtain ⟨r, hr, hru⟩ := List.any_eq_true.mp (record_file_mem db u n c t2)
    exact ⟨r, hr, by simpa using hru⟩
  · unfold runLedgerOnDisk
    by_cases hab : (runItems uploadFails root_id t s items).2
    · simp only [hab, if_pos]
      exact (runItems_keeps_commit uploadFails root_id t items s h).symm
    · simp [hab, commitDb]

/-- Witness for C9: a run that aborts on its only item still reports an
on-disk ledger equal to the connection's view. -/
theorem record_file_commits_durably_witness :
    ((⟨⟨[], []⟩, ⟨[], [], 0⟩, [], []⟩ : RunState).db.pending =
      (⟨⟨[], []⟩, ⟨[], [], 0⟩, [], []⟩ : RunState).db.durable) ∧
    runLedgerOnDisk (fun _ => true) 0 7 ⟨⟨[], []⟩, ⟨[], [], 0⟩, [], []⟩
        [⟨"notes.pdf", "https://x/1", "CS101"⟩] =
      (runItems (fun _ => true) 0 7 ⟨⟨[], []⟩, ⟨[], [], 0⟩, [], []⟩
        [⟨"notes.pdf", "https://x/1", "CS101"⟩]).1.db.pending :=
  ⟨rfl,
   (record_file_commits_durably (fun _ => true) 0 7
     ⟨⟨[], []⟩, ⟨[], [], 0⟩, [], []⟩
     [⟨"notes.pdf", "https://x/1", "CS101"⟩] rfl).2⟩

/-- C6: with an empty ledger, a run over two items whose second upload
fails aborts with a durable record for the first item only; a subsequent
run over the same items with no failures finishes, adds exactly one record
for the second item, and leaves the first record unchanged in every field. -/
theorem scenario_d_ledger (f1 f2 : MoodleFile) (root_id t1 t2 : Nat) (d : Drive)
    (hne : f1.url ≠ f2.url) (uploadFails : String → Bool)
    (h1 : uploadFails f1.url = false) (h2 : uploadFails f2.url = true) :
    (runItems uploadFails root_id t1 ⟨⟨[], []⟩, d, [], []⟩ [f1, f2]).2 = true ∧
    (runItems uploadFails root_id t1 ⟨⟨[], []⟩, d, [], []⟩ [f1, f2]).1.db.durable =
      [⟨f1.url, f1.name, f1.course, t1⟩] ∧
    ∀ (d2 : Drive) (fs2 : List String),
      (runItems (fun _ => false) root_id t2
          ⟨⟨[⟨f1.url, f1.name, f1.course, t1⟩],
            [⟨f1.url, f1.name, f1.course, t1⟩]⟩, d2, fs2, []⟩ [f1, f2]).2 = false ∧
      (runItems (fun _ => false) root_id t2
          ⟨⟨[⟨f1.url, f1.name, f1.course, t1⟩],
            [⟨f1.url, f1.name, f1.course, t1⟩]⟩, d2, fs2, []⟩
          [f1, f2]).1.db.durable =
        [⟨f1.url, f1.name, f1.course, t1⟩, ⟨f2.url, f2.name, f2.course, t2⟩] := by
  have hb12 : (f1.url == f2.url) = false := beq_eq_false_iff_ne.mpr hne
  refine ⟨?_, ?_, ?_⟩
  · simp [runItems, processItem, file_already_synced, record_file, commitDb,
          fsAdd, fsRemove, h1, h2, hb12]
  · simp [runItems, processItem, file_already_synced, record_file, commitDb,
          fsAdd, fsRemove, h1, h2, hb12]
  · intro d2 fs2
    refine ⟨?_, ?_⟩ <;>
      simp [runItems, processItem, file_already_synced, record_file, commitDb,
            fsAdd, fsRemove, hb12]

/-- Witness for C6: the two-file scenario at concrete values — the second
upload failing leaves one durable record, and the clean re-run yields the
two records with the first unchanged. -/
theorem scenario_d_ledger_witness :
    (("https://x/1" : String) ≠ "https://x/2") ∧
    (runItems (fun u => u == "https://x/2") 0 1 ⟨⟨[], []⟩, ⟨[], [], 0⟩, [], []⟩
        [⟨"notes.pdf", "https://x/1", "CS101"⟩,
         ⟨"slides.pdf", "https://x/2", "CS101"⟩]).1.db.durable =
      [⟨"https://x/1", "notes.pdf", "CS101", 1⟩] ∧
    (runItems (fun _ => false) 0 2
        ⟨⟨[⟨"https://x/1", "notes.pdf", "CS101", 1⟩],
          [⟨"https://x/1", "notes.pdf", "CS101", 1⟩]⟩, ⟨[], [], 0⟩, [], []⟩
        [⟨"notes.pdf", "https://x/1", "CS101"⟩,
         ⟨"slides.pdf", "https://x/2", "CS101"⟩]).1.db.durable =
      [⟨"https://x/1", "notes.pdf", "CS101", 1⟩,
       ⟨"https://x/2", "slides.pdf", "CS101", 2⟩] :=
  ⟨by decide,
   (scenario_d_ledger ⟨"notes.pdf", "https://x/1", "CS101"⟩
     ⟨"slides.pdf", "https://x/2", "CS101"⟩ 0 1 2 ⟨[], [], 0⟩ (by decide)
     (fun u => u == "https://x/2") (by decide) (by decide)).2.1,
   ((scenario_d_ledger ⟨"notes.pdf", "https://x/1", "CS101"⟩
     ⟨"slides.pdf", "https://x/2", "CS101"⟩ 0 1 2 ⟨[], [], 0⟩ (by decide)
     (fun u => u == "https://x/2") (by decide) (by decide)).2.2 ⟨[], [], 0⟩ []).2⟩

end MoodleSync
